import Mathlib

/-!
A verification development for the example-catalog / documentation-generation
tooling of the PrefectHQ/examples repository (`internal/utils.py`,
`internal/generate_docs.py`, `internal/run_example.py`,
`internal/tests/generate_test_plan.py`).

The Python code is shallowly embedded: file contents are `List Char`,
paths are `String`, Python generators are modelled by a one-shot cursor
type, exceptions by `Except`/`Option`, and the one regular expression the
frontmatter parser uses is embedded as an executable matcher with the
semantics of Python's `re.search` on that concrete pattern.
-/

namespace PrefectExamples

/-! ## Python string primitives

Helpers mirroring the Python string/`pathlib` operations the tool uses.
Character classes follow the ASCII behaviour of `\s` and `str.strip`,
which is all the repository's content exercises.
-/

/-- The characters matched by the regex class `\s` and stripped by
`str.strip()` (ASCII range). -/
def pyWs (c : Char) : Bool :=
  c = ' ' || c = '\t' || c = '\n' || c = '\r' || c = Char.ofNat 11 || c = Char.ofNat 12

/-- Python `str.strip()`: remove leading and trailing whitespace. -/
def pyStrip (l : List Char) : List Char :=
  ((l.dropWhile pyWs).reverse.dropWhile pyWs).reverse

/-- Python `str.split(sep)` for a single-character separator. -/
def splitOnChar (c : Char) : List Char → List (List Char)
  | [] => [[]]
  | x :: xs =>
    let r := splitOnChar c xs
    if x = c then [] :: r
    else
      match r with
      | h :: t => (x :: h) :: t
      | [] => [[x]]

/-- Python `needle in hay` (substring test). -/
def listInfixOf (needle hay : List Char) : Bool :=
  (List.range (hay.length + 1)).any (fun i => needle.isPrefixOf (hay.drop i))

/-- Python `str.startswith` on Lean strings. -/
def strStartsWith (s p : String) : Bool := p.toList.isPrefixOf s.toList

/-- Python `str.endswith` on Lean strings. -/
def strEndsWith (s p : String) : Bool := p.toList.isSuffixOf s.toList

/-- Python `needle in hay` on Lean strings. -/
def strContains (hay needle : String) : Bool := listInfixOf needle.toList hay.toList

/-- Index of the last `'.'` in a file name (`str.rfind('.')`), if any. -/
def rfindDot (l : List Char) : Option Nat :=
  ((List.range l.length).filter (fun i => l.get? i == some '.')).getLast?

/-- `pathlib.PurePath.suffix`: the final extension including the dot, or
`""` when the last dot is absent, leading, or trailing. -/
def pathSuffix (l : List Char) : List Char :=
  match rfindDot l with
  | some i => if 0 < i && i + 1 < l.length then l.drop i else []
  | none => []

/-- `pathlib.PurePath.stem`: the name with its final extension removed. -/
def pathStem (l : List Char) : List Char :=
  match rfindDot l with
  | some i => if 0 < i && i + 1 < l.length then l.take i else l
  | none => l

/-- `pathlib.PurePath.suffix` on Lean strings. -/
def pathSuffixS (s : String) : String := String.mk (pathSuffix s.toList)

/-- `pathlib.PurePath.stem` on Lean strings. -/
def pathStemS (s : String) : String := String.mk (pathStem s.toList)

/-- Python `'/'.join(parts)`. -/
def joinSlash : List String → String
  | [] => ""
  | [p] => p
  | p :: rest => p ++ "/" ++ joinSlash rest

/-! ## The frontmatter regular expression

`internal/utils.py` locates frontmatter with
`re.compile(r"^---\s*$([\s\S]*?)^---\s*$", re.MULTILINE).search(content)`.
The embedding reproduces `re.search`'s behaviour on this pattern over a
`List Char`: positions are character indices, `^` matches at index 0 or
after a newline, `$` matches at the end or before a newline, the two
`\s*` are greedy with backtracking and the group is lazy, so the match is
the leftmost opening delimiter line paired with the earliest closing
delimiter line after it.
-/

/-- `$` of `re.MULTILINE`: end of input or just before a newline. -/
def isDollar (s : List Char) (i : Nat) : Bool :=
  i == s.length || s.get? i == some '\n'

/-- `^` of `re.MULTILINE`: start of input or just after a newline. -/
def isCaret (s : List Char) (i : Nat) : Bool :=
  i == 0 || s.get? (i - 1) == some '\n'

/-- The literal `---` at position `i`. -/
def hasDashes (s : List Char) (i : Nat) : Bool :=
  s.get? i == some '-' && s.get? (i + 1) == some '-' && s.get? (i + 2) == some '-'

/-- Length of the maximal `\s` run starting at position `i`. -/
def wsRun (s : List Char) (i : Nat) : Nat :=
  ((s.drop i).takeWhile pyWs).length

/-- Backtracking of `\s*$` starting at `j`: the largest number of
whitespace characters `\s*` can consume while leaving `$` satisfied. -/
def dollarK (s : List Char) (j : Nat) : Option Nat :=
  ((List.range (wsRun s j + 1)).filter (fun k => isDollar s (j + k))).getLast?

/-- Whether `^---\s*$` matches at position `i`. -/
def delimAt (s : List Char) (i : Nat) : Bool :=
  isCaret s i && hasDashes s i && (dollarK s (i + 3)).isSome

/-- Position just after `---\s*$` matched at `i` (the sub-match end). -/
def delimEndAfter (s : List Char) (i : Nat) : Nat :=
  i + 3 + (dollarK s (i + 3)).getD 0

/-- `re.search` of the frontmatter pattern: the match as
`(start, group start, group end, end)`, or `none`. -/
def fmFind (s : List Char) : Option (Nat × Nat × Nat × Nat) :=
  (List.range (s.length + 1)).findSome? (fun p =>
    if delimAt s p then
      let g := delimEndAfter s p
      match (List.range (s.length + 1)).find? (fun q => decide (g ≤ q) && delimAt s q) with
      | some q => some (p, g, q, delimEndAfter s q)
      | none => none
    else none)

/-! ## Python values and the YAML call

`parse_frontmatter` feeds the matched group to `yaml.safe_load` inside a
`try`/`except` and replaces a falsy result with `{}` (the `or {}`).  The
YAML library is external, so the parser is a parameter: `Except.error`
models `safe_load` (or the `import yaml` itself) raising.
-/

/-- A Python value as returned by `yaml.safe_load`. -/
inductive PyVal where
  | vnone
  | vbool (b : Bool)
  | vint (n : Int)
  | vstr (s : List Char)
  | vlist (xs : List PyVal)
  | vdict (kvs : List (List Char × PyVal))

/-- Python truthiness of a `PyVal` (used by the `or {}` fallback). -/
def truthy : PyVal → Bool
  | .vnone => false
  | .vbool b => b
  | .vint n => n != 0
  | .vstr s => !s.isEmpty
  | .vlist xs => !xs.isEmpty
  | .vdict kvs => !kvs.isEmpty

/-- `try: metadata = yaml.safe_load(t) or {} except Exception: metadata = {}`. -/
def metaOr (r : Except Unit PyVal) : PyVal :=
  match r with
  | .error _ => .vdict []
  | .ok v => if truthy v then v else .vdict []

/-- `internal/utils.py::parse_frontmatter`, parameterised by the YAML
parser.  Returns `(metadata, cleaned)` where `metadata` is `none` when
the pattern does not match, and `cleaned` is the content with the whole
match excised and then `str.strip()`ped. -/
def parse_frontmatter (yload : List Char → Except Unit PyVal) (content : List Char) :
    Option PyVal × List Char :=
  match fmFind content with
  | none => (none, content)
  | some (st, g1, g2, en) =>
    let yamlText := (content.drop g1).take (g2 - g1)
    let cleaned := content.take st ++ content.drop en
    (some (metaOr (yload yamlText)), pyStrip cleaned)

/-! ## The catalog data model

`internal/utils.py` declares `ExampleType` and the pydantic model
`Example`.  The frontmatter metadata a module carries is modelled by the
recognised keys the tooling reads (`cmd`, `args`, `tags`, `env`, and the
flags), each `Option` so that "key absent from the dict" is `none` and an
explicitly declared value — even an empty list — is `some`.
-/

/-- `internal/utils.py::ExampleType`. -/
inductive ExampleType where
  | module
  | asset
deriving DecidableEq, Repr

/-- The recognised frontmatter keys as read by the tooling
(`metadata.get("cmd")`, `metadata.get("args")`, `metadata.get("tags")`,
`metadata.get("env")`, and the boolean flags). -/
structure Meta where
  cmd : Option (List String) := none
  args : Option (List String) := none
  tags : Option (List String) := none
  env : Option (List (String × String)) := none
  draft : Option Bool := none
  deploy : Option Bool := none
  pytest : Option Bool := none
deriving DecidableEq, Repr

/-- `internal/utils.py::Example`. -/
structure Example where
  type : ExampleType
  filename : String
  module : Option String := none
  metadata : Option Meta := none
  repo_filename : String
  cli_args : Option (List String) := none
  stem : Option String := none
  tags : Option (List String) := none
  env : Option (List (String × String)) := none
deriving DecidableEq, Repr

/-- The default command: `metadata.get("cmd", ["prefect", "run", repo_filename])`. -/
def defaultCmd (repoFilename : String) : List String :=
  ["prefect", "run", repoFilename]

/-- The Module-entry construction of
`internal/utils.py::gather_example_files` (the `.py` branch): resolve the
repo-relative path, dotted module path, command line, stem, tags and
environment from the file's location and frontmatter metadata. -/
def mkModuleExample (parents : List String) (subdirName subdirStem fname fstem : String)
    (filenameAbs : String) (meta : Meta) : Example :=
  let repoFilename :=
    if parents.isEmpty then subdirName ++ "/" ++ fname
    else joinSlash parents ++ "/" ++ subdirName ++ "/" ++ fname
  let module :=
    if parents.isEmpty then "examples." ++ subdirStem ++ "." ++ fstem
    else "examples." ++ String.intercalate "." parents ++ "." ++ subdirStem ++ "." ++ fstem
  let cmd := meta.cmd.getD (defaultCmd repoFilename)
  let args := meta.args.getD []
  { type := .module
    filename := filenameAbs
    module := some module
    metadata := some meta
    repo_filename := repoFilename
    cli_args := some (cmd ++ args)
    stem := some fstem
    tags := some (meta.tags.getD [])
    env := some (meta.env.getD []) }

/-- The Asset-entry construction of
`internal/utils.py::gather_example_files` (the media-extension branch). -/
def mkAssetExample (parents : List String) (subdirName fname filenameAbs : String) : Example :=
  let repoFilename :=
    if parents.isEmpty then subdirName ++ "/" ++ fname
    else joinSlash parents ++ "/" ++ subdirName ++ "/" ++ fname
  { type := .asset
    filename := filenameAbs
    repo_filename := repoFilename }

/-! ## The directory walk

`gather_example_files` iterates a directory; when it meets a
subdirectory with `recurse` set it recurses once with `recurse=False`, so
traversal stops two levels down.  The filesystem is modelled as a tree
whose files carry their already-parsed frontmatter (the `jupytext.read`
result); `Except.error` models the `IsADirectoryError` Python would
raise on `open` if a directory's name ended in `.py`.
-/

/-- A filesystem node: a file with its parsed frontmatter, or a directory. -/
inductive FsNode where
  | file (name : String) (meta : Meta)
  | dir (name : String) (children : List FsNode)
deriving Repr

/-- Name of a node. -/
def FsNode.name : FsNode → String
  | .file n _ => n
  | .dir n _ => n

/-- The media extensions classified as assets. -/
def mediaExts : List String := [".png", ".jpeg", ".jpg", ".gif", ".mp4"]

/-- The non-recursive arm of the `gather_example_files` loop body: the
entry is classified by extension alone.  A `.py` file becomes a Module
entry, a media extension becomes an Asset entry, anything else lands in
the `ignored` list.  A directory whose name ends in `.py` makes Python
`open` a directory, which raises. -/
def classifyFlat (base : String) (parents : List String) (subdirName subdirStem : String)
    (node : FsNode) : Except Unit (List Example × List String) :=
  let fname := node.name
  let ext := pathSuffixS fname
  let fstem := pathStemS fname
  let filenameAbs := base ++ "/" ++ fname
  if ext == ".py" && fstem != "__init__" then
    match node with
    | .file _ meta =>
      .ok ([mkModuleExample parents subdirName subdirStem fname fstem filenameAbs meta], [])
    | .dir _ _ => .error ()
  else if mediaExts.contains ext then
    .ok ([mkAssetExample parents subdirName fname filenameAbs], [])
  else
    .ok ([], [filenameAbs])

mutual

/-- One iteration of the `gather_example_files` loop: a directory is
recursed into (with `recurse=False`) only when `recurse` is set,
otherwise the node is classified flat. -/
def gatherNode (base : String) (parents : List String) (subdirName subdirStem : String)
    (node : FsNode) (recurse : Bool) : Except Unit (List Example × List String) :=
  match node with
  | .dir n cs =>
    if recurse then
      gatherChildren (base ++ "/" ++ n) (parents ++ [subdirStem]) n (pathStemS n) cs false
    else
      classifyFlat base parents subdirName subdirStem (.dir n cs)
  | .file n m => classifyFlat base parents subdirName subdirStem (.file n m)

/-- `internal/utils.py::gather_example_files` over the children of
`subdir`, yielding the examples in order and accumulating the ignored
paths. -/
def gatherChildren (base : String) (parents : List String) (subdirName subdirStem : String)
    (children : List FsNode) (recurse : Bool) : Except Unit (List Example × List String) :=
  match children with
  | [] => .ok ([], [])
  | c :: rest => do
    let r1 ← gatherNode base parents subdirName subdirStem c recurse
    let r2 ← gatherChildren base parents subdirName subdirStem rest recurse
    .ok (r1.1 ++ r2.1, r1.2 ++ r2.2)

end

/-! ## Generator semantics

`get_examples` in `internal/utils.py` is a generator function (its body
uses `yield from`), so the value `run_single_example` binds to
`examples` is a one-shot iterator: a list comprehension drains it, and a
later comprehension over the same name iterates the leftovers — nothing.
`PyGen` makes that explicit.
-/

/-- A Python generator mid-consumption: the items it has yet to yield. -/
structure PyGen (α : Type) where
  remaining : List α
deriving DecidableEq, Repr

/-- A list comprehension `[x for x in gen if p x]` over a generator:
collects the matching leftovers and exhausts the generator. -/
def PyGen.comprehend {α : Type} (g : PyGen α) (p : α → Bool) : List α × PyGen α :=
  (g.remaining.filter p, ⟨[]⟩)

/-! ## `internal/run_example.py::run_single_example` -/

/-- The outcome of `run_single_example`'s matching phase: no match
(prints and exits 1), ambiguous (lists candidates and exits 1), or a
unique match handed to `run_script`. -/
inductive RunSelection where
  | noMatch
  | ambiguous (candidates : List Example)
  | run (e : Example)
deriving DecidableEq, Repr

/-- `internal/run_example.py::run_single_example`: `examples =
get_examples()` binds the generator over `catalog`; the exact-path scan
is a comprehension over it, and the stem and substring scans are
comprehensions over whatever the earlier scans left behind. -/
def run_single_example (catalog : List Example) (query : String) : RunSelection :=
  let examples : PyGen Example := ⟨catalog⟩
  let (m1, examples) := examples.comprehend (fun e => e.repo_filename == query)
  let (m2, examples) :=
    if m1.isEmpty then examples.comprehend (fun e => e.stem == some query)
    else (m1, examples)
  let (m3, _) :=
    if m2.isEmpty then examples.comprehend (fun e => strContains e.repo_filename query)
    else (m2, examples)
  match m3 with
  | [] => .noMatch
  | [e] => .run e
  | es => .ambiguous es

/-! ## `internal/tests/generate_test_plan.py::get_examples_to_test` -/

/-- The set comprehension of `get_examples_to_test`: changed paths that
end in `.py`, live under `examples/`, and are not `__init__.py`. -/
def changedPyFiles (changedFiles : List String) : List String :=
  changedFiles.filter (fun f =>
    strEndsWith f ".py" && strStartsWith f "examples/" && !(strEndsWith f "__init__.py"))

/-- `internal/tests/generate_test_plan.py::get_examples_to_test`: any
changed path under `internal/` selects the whole catalog; otherwise the
entries whose `repo_filename` is among the changed Python example files.
(The early-`return` loop over `changed_files` is `any`.) -/
def get_examples_to_test (catalog : List Example) (changedFiles : List String) :
    List Example :=
  if changedFiles.any (fun f => strStartsWith f "internal/") then catalog
  else
    let changedPy := changedPyFiles changedFiles
    catalog.filter (fun e => changedPy.contains e.repo_filename)

/-! ## `internal/generate_docs.py::generate_docs`

Rendering (`render_example_md`) reads the source file, so it enters the
model as a parameter; `Except.error` models a raise.  Output writes are
tracked as the list of written paths relative to the output directory,
in write order.  The Python loop has no exception handling: a render
failure propagates, aborting the run after the files already written —
no index file and no final report (`none` in place of the return code).
-/

/-- `generate_docs`'s `unwanted_prefixes`. -/
def unwantedPrefixes : List String := [".venv/", "venv/", "env/", "node_modules/"]

/-- `generate_docs`'s `should_include_example`. -/
def shouldIncludeExample (e : Example) : Bool :=
  !(unwantedPrefixes.any (fun p => strStartsWith e.repo_filename p))

/-- The output path `category/stem + extension` that `generate_docs`
writes one entry to: the category is the first path segment (or `misc`
for a bare filename) and the stem is the last segment's stem. -/
def docPath (ext : String) (e : Example) : String :=
  let parts := splitOnChar '/' e.repo_filename.toList
  let category := if parts.length > 1 then String.mk (parts.headD []) else "misc"
  let base := String.mk (pathStem (parts.getLastD []))
  category ++ "/" ++ base ++ ext

/-- The `for example in examples:` loop of `generate_docs`: render and
write each entry in turn; a raise from the renderer stops the loop,
keeping the files already written.  Returns the written paths and
whether the loop aborted. -/
def writeDocs (render : Example → Except Unit String) (ext : String) :
    List Example → List String × Bool
  | [] => ([], false)
  | e :: rest =>
    match render e with
    | .error _ => ([], true)
    | .ok _ =>
      let (ws, aborted) := writeDocs render ext rest
      (docPath ext e :: ws, aborted)

/-- `internal/generate_docs.py::generate_docs`: filter the catalog by
the unwanted prefixes, render and write every remaining entry, then
write the index file and return exit code 0 — unless a render raised,
in which case the exception propagates (`none`) with only the files
written before it.  (The `if not examples:` guard never fires: a
generator object is always truthy.) -/
def generate_docs (render : Example → Except Unit String) (ext : String)
    (catalog : List Example) : List String × Option Nat :=
  let included := catalog.filter shouldIncludeExample
  let (files, aborted) := writeDocs render ext included
  if aborted then (files, none) else (files ++ ["index" ++ ext], some 0)

/-! ## The spec-side view of the directory walk

The spec describes the traversal as explicitly two-level: classify the
subtree's items; for each immediate subdirectory, classify its items
non-recursively; never look deeper.  `twoLevelGather` is that
description written directly, with no `recurse` flag and no recursion
into directory contents below the second level; the pruning functions
erase everything the spec says is never read.
-/

/-- Flat (non-recursive) classification of a list of nodes, in order. -/
def classifyFlatList (base : String) (parents : List String) (subdirName subdirStem : String) :
    List FsNode → Except Unit (List Example × List String)
  | [] => .ok ([], [])
  | c :: rest => do
    let r1 ← classifyFlat base parents subdirName subdirStem c
    let r2 ← classifyFlatList base parents subdirName subdirStem rest
    .ok (r1.1 ++ r2.1, r1.2 ++ r2.2)

/-- The spec's traversal contract, written directly: items of the
subtree are classified; an immediate subdirectory's items are listed
non-recursively; nothing below the second level is visited. -/
def twoLevelGather (base : String) (parents : List String) (subdirName subdirStem : String) :
    List FsNode → Except Unit (List Example × List String)
  | [] => .ok ([], [])
  | c :: rest => do
    let r1 ←
      match c with
      | .file n m => classifyFlat base parents subdirName subdirStem (.file n m)
      | .dir n cs =>
        classifyFlatList (base ++ "/" ++ n) (parents ++ [subdirStem]) n (pathStemS n) cs
    let r2 ← twoLevelGather base parents subdirName subdirStem rest
    .ok (r1.1 ++ r2.1, r1.2 ++ r2.2)

/-- Erase a directory's contents (applied two levels down: the walk may
see this directory's name but never its contents). -/
def pruneDeep : FsNode → FsNode
  | .file n m => .file n m
  | .dir n _ => .dir n []

/-- Prune an immediate child of the walked subtree: its own grandchild
directories lose their contents. -/
def pruneLevel1 : FsNode → FsNode
  | .file n m => .file n m
  | .dir n cs => .dir n (cs.map pruneDeep)

/-! ## Concrete catalog entries

The repository's own files, as `gather_example_files` would build them:
`examples/02_flows/prefect_and_dbt.py` declares `draft: true` in its
frontmatter, the two getting-started examples declare `draft: false`.
-/

/-- Frontmatter of `examples/02_flows/prefect_and_dbt.py` (declares
`draft: true`). -/
def dbtMeta : Meta :=
  { cmd := some ["python", "02_flows/prefect_and_dbt.py"]
    tags := some ["dbt", "materialization", "tasks", "analytics"]
    draft := some true }

/-- Catalog entry for `examples/02_flows/prefect_and_dbt.py`. -/
def dbtEntry : Example :=
  mkModuleExample [] "02_flows" "02_flows" "prefect_and_dbt.py" "prefect_and_dbt"
    "/repo/examples/02_flows/prefect_and_dbt.py" dbtMeta

/-- Frontmatter of `examples/01_getting_started/01_hello_world.py`. -/
def helloMeta : Meta :=
  { cmd := some ["python", "01_getting_started/01_hello_world.py"]
    tags := some ["getting_started", "basics"]
    draft := some false }

/-- Catalog entry for `examples/01_getting_started/01_hello_world.py`. -/
def helloEntry : Example :=
  mkModuleExample [] "01_getting_started" "01_getting_started" "01_hello_world.py"
    "01_hello_world" "/repo/examples/01_getting_started/01_hello_world.py" helloMeta

/-- Frontmatter of `examples/01_getting_started/02_simple_web_scraper.py`. -/
def scraperMeta : Meta :=
  { cmd := some ["python", "01_getting_started/02_simple_web_scraper.py"]
    tags := some ["getting_started", "web"]
    draft := some false }

/-- Catalog entry for `examples/01_getting_started/02_simple_web_scraper.py`. -/
def scraperEntry : Example :=
  mkModuleExample [] "01_getting_started" "01_getting_started" "02_simple_web_scraper.py"
    "02_simple_web_scraper" "/repo/examples/01_getting_started/02_simple_web_scraper.py"
    scraperMeta

/-- A stand-in for the YAML library raising on every input (also what
the `import yaml` fallback produces when the library is absent). -/
def yamlRaises : List Char → Except Unit PyVal := fun _ => .error ()

/-- A renderer that succeeds on every entry. -/
def renderOk : Example → Except Unit String := fun _ => .ok "rendered"

/-- A renderer that raises on the hello-world entry and succeeds on
every other entry. -/
def renderFailsHello : Example → Except Unit String := fun e =>
  if e.repo_filename == "01_getting_started/01_hello_world.py" then .error ()
  else .ok "rendered"

/-- A document whose only `---` delimiter lines occur after ordinary
text: the frontmatter pattern, searched with `re.MULTILINE` and no
anchor to the start of input, still matches it mid-document. -/
def midDocInput : List Char := "Intro text\n---\na: 1\n---\n".toList

/-- A file body with no `---` line anywhere. -/
def noDelimInput : List Char := "import prefect\n\n# test\n".toList

/-- A well-delimited block whose interior is not valid YAML. -/
def badYamlInput : List Char := "---\n\x7b bad\n---\nbody\n".toList

/-! ## Theorems -/

/-- A successful `fmFind` starts at a position where the opening
delimiter line matches. -/
theorem fmFind_start_delim {x : List Char} {st g1 g2 en : Nat}
    (h : fmFind x = some (st, g1, g2, en)) : delimAt x st = true := by
  unfold fmFind at h
  obtain ⟨p, _, hp⟩ := List.exists_of_findSome?_eq_some h
  cases hd : delimAt x p with
  | false => rw [hd] at hp; simp at hp
  | true =>
    rw [hd] at hp
    simp only [if_true] at hp
    cases hfind : (List.range (x.length + 1)).find?
        (fun q => decide (delimEndAfter x p ≤ q) && delimAt x q) with
    | none => simp [hfind] at hp
    | some q =>
      simp [hfind] at hp
      obtain ⟨h1, -, -, -⟩ := hp
      rw [← h1]
      exact hd

/-- **C4** (corrected): when the frontmatter pattern matches nowhere in
the input, `parse_frontmatter` returns `(None, x)` with the text
unchanged.  (The original claim assumed only that no *leading*
delimiter is present; `claim_C4_counterexample` shows that is not
enough, since the search is not anchored to the head.) -/
theorem claim_C4_no_match_returns_input (yload : List Char → Except Unit PyVal)
    (x : List Char) (h : fmFind x = none) :
    parse_frontmatter yload x = (none, x) := by
  simp [parse_frontmatter, h]

/-- **C4** counterexample: `midDocInput` starts with ordinary text, so
it has no leading frontmatter delimiter, yet `parse_frontmatter` finds
the mid-document `---` pair, returns metadata, and excises the block. -/
theorem claim_C4_counterexample :
    delimAt midDocInput 0 = false
    ∧ (parse_frontmatter yamlRaises midDocInput).1.isSome = true
    ∧ (parse_frontmatter yamlRaises midDocInput).2 ≠ midDocInput := by
  exact ⟨by decide, by decide, by decide⟩

/-- **C4** witness: a concrete delimiter-free input is returned
untouched. -/
theorem claim_C4_witness :
    fmFind noDelimInput = none
    ∧ parse_frontmatter yamlRaises noDelimInput = (none, noDelimInput) :=
  ⟨by decide, claim_C4_no_match_returns_input yamlRaises noDelimInput (by decide)⟩

/-- **C5** (confirmed): a well-delimited block whose interior makes the
YAML parser raise does not make `parse_frontmatter` raise: the result is
`({}, cleaned)` where `cleaned` is the input with the matched block
(both delimiter lines included) excised and stripped of surrounding
blank space. -/
theorem claim_C5_unparseable_block_degrades (yload : List Char → Except Unit PyVal)
    (x : List Char) (st g1 g2 en : Nat)
    (hm : fmFind x = some (st, g1, g2, en))
    (hy : yload ((x.drop g1).take (g2 - g1)) = .error ()) :
    parse_frontmatter yload x = (some (PyVal.vdict []), pyStrip (x.take st ++ x.drop en)) := by
  simp [parse_frontmatter, hm, hy, metaOr]

/-- **C5** witness: the concrete `badYamlInput` block degrades to
`({}, "body")`. -/
theorem claim_C5_witness :
    fmFind badYamlInput = some (0, 3, 10, 13)
    ∧ parse_frontmatter yamlRaises badYamlInput = (some (PyVal.vdict []), "body".toList) :=
  ⟨by decide,
    claim_C5_unparseable_block_degrades yamlRaises badYamlInput 0 3 10 13 (by decide) rfl⟩

/-- **C10** (confirmed): the pattern matches the first `---` pair
anywhere in the content, not only at the head: whenever no delimiter
line opens the document but the search still finds a match, the match
starts strictly after position 0, the text between the delimiters is
handed to the YAML parser as metadata, and the block is excised from the
returned remaining text. -/
theorem claim_C10_mid_document_block_parsed (yload : List Char → Except Unit PyVal)
    (x : List Char) (st g1 g2 en : Nat)
    (h0 : delimAt x 0 = false)
    (hm : fmFind x = some (st, g1, g2, en)) :
    0 < st ∧ parse_frontmatter yload x
      = (some (metaOr (yload ((x.drop g1).take (g2 - g1)))), pyStrip (x.take st ++ x.drop en)) := by
  constructor
  · rcases Nat.eq_zero_or_pos st with h | h
    · have hd := fmFind_start_delim hm
      rw [h, h0] at hd
      cases hd
    · exact h
  · simp [parse_frontmatter, hm]

/-- **C10** witness: `midDocInput`'s two `---` lines follow ordinary
text, and the block between them is parsed and excised. -/
theorem claim_C10_witness :
    delimAt midDocInput 0 = false
    ∧ fmFind midDocInput = some (11, 14, 20, 24)
    ∧ (0 < 11 ∧ parse_frontmatter yamlRaises midDocInput
        = (some (PyVal.vdict []), "Intro text".toList)) :=
  ⟨by decide, by decide,
    claim_C10_mid_document_block_parsed yamlRaises midDocInput 11 14 20 24 (by decide) (by decide)⟩

/-- **C1** (code bug): `generate_docs` has no draft handling at all.
For the repository's own `examples/02_flows/prefect_and_dbt.py`, whose
frontmatter declares `draft: true`, the entry passes the only filter
there is (the unwanted-prefix one) and its documentation file is
written. -/
theorem claim_C1_generate_docs_writes_draft_entry :
    dbtEntry.metadata.bind Meta.draft = some true
    ∧ shouldIncludeExample dbtEntry = true
    ∧ generate_docs renderOk ".mdx" [dbtEntry]
        = (["02_flows/prefect_and_dbt.mdx", "index.mdx"], some 0) := by
  exact ⟨rfl, by decide, by decide⟩

/-- **C2** (code bug): `run_single_example` binds `examples =
get_examples()`, a generator; the exact-path comprehension exhausts it,
so the stem scan iterates nothing.  For a catalog holding exactly one
entry whose stem equals the query (and no exact-path match), the
function reports no match instead of selecting that entry. -/
theorem claim_C2_stem_lookup_exhausted_generator :
    ([helloEntry].filter (fun e => e.repo_filename == "01_hello_world")).isEmpty = true
    ∧ [helloEntry].filter (fun e => e.stem == some "01_hello_world") = [helloEntry]
    ∧ run_single_example [helloEntry] "01_hello_world" = RunSelection.noMatch := by
  decide

/-- The docs loop on `pre ++ e :: post`: when every entry of `pre`
renders and `e` raises, exactly the files for `pre` are written and the
loop aborts. -/
theorem writeDocs_abort (render : Example → Except Unit String) (ext : String)
    (pre : List Example) (e : Example) (post : List Example)
    (hpre : ∀ p ∈ pre, (render p).isOk = true)
    (he : (render e).isOk = false) :
    writeDocs render ext (pre ++ e :: post) = (pre.map (docPath ext), true) := by
  induction pre with
  | nil =>
    simp only [List.nil_append]
    cases hr : render e with
    | ok v => rw [hr] at he; simp [Except.isOk, Except.toBool] at he
    | error u => simp [writeDocs, hr]
  | cons p rest ih =>
    have hp := hpre p (by simp)
    cases hr : render p with
    | error u => rw [hr] at hp; simp [Except.isOk, Except.toBool] at hp
    | ok v =>
      simp [writeDocs, hr, ih (fun q hq => hpre q (List.mem_cons_of_mem p hq))]

/-- **C3** (corrected): a render failure does **not** leave the run
intact — the exception propagates.  When the included entries split as
`pre ++ e :: post` with every entry of `pre` rendering fine and `e`
raising, `generate_docs` writes exactly the files for `pre`, skips every
remaining entry, writes no index, and reports nothing (`none` instead
of an exit code). -/
theorem claim_C3_render_failure_aborts_run (render : Example → Except Unit String)
    (ext : String) (catalog pre post : List Example) (e : Example)
    (hsplit : catalog.filter shouldIncludeExample = pre ++ e :: post)
    (hpre : ∀ p ∈ pre, (render p).isOk = true)
    (he : (render e).isOk = false) :
    generate_docs render ext catalog = (pre.map (docPath ext), none) := by
  unfold generate_docs
  rw [hsplit]
  simp [writeDocs_abort render ext pre e post hpre he]

/-- **C3** counterexample to the claim as stated: with a catalog of two
entries where rendering the first raises, the run does not continue to
the second entry (which would render fine) and produces no counts at
all. -/
theorem claim_C3_counterexample :
    generate_docs renderFailsHello ".mdx" [helloEntry, scraperEntry] = ([], none)
    ∧ (renderFailsHello scraperEntry).isOk = true := by
  decide

/-- **C3** witness for the corrected statement, at the same two-entry
catalog. -/
theorem claim_C3_witness :
    ([helloEntry, scraperEntry].filter shouldIncludeExample
        = [] ++ helloEntry :: [scraperEntry])
    ∧ (renderFailsHello helloEntry).isOk = false
    ∧ generate_docs renderFailsHello ".mdx" [helloEntry, scraperEntry] = ([], none) :=
  ⟨by decide, by decide,
    claim_C3_render_failure_aborts_run renderFailsHello ".mdx" [helloEntry, scraperEntry]
      [] [scraperEntry] helloEntry (by decide) (by decide) (by decide)⟩

/-- **C6** (confirmed): one changed path under `internal/` makes
`get_examples_to_test` return the whole catalog, whatever else
changed. -/
theorem claim_C6_internal_change_selects_all (catalog : List Example)
    (changed : List String)
    (h : changed.any (fun f => strStartsWith f "internal/") = true) :
    get_examples_to_test catalog changed = catalog := by
  simp [get_examples_to_test, h]

/-- **C6** witness: a concrete changed-file list touching
`internal/utils.py` selects the full two-entry catalog. -/
theorem claim_C6_witness :
    (["internal/utils.py", "README.md"].any (fun f => strStartsWith f "internal/") = true)
    ∧ get_examples_to_test [helloEntry, dbtEntry] ["internal/utils.py", "README.md"]
        = [helloEntry, dbtEntry] :=
  ⟨by decide,
    claim_C6_internal_change_selects_all [helloEntry, dbtEntry]
      ["internal/utils.py", "README.md"] (by decide)⟩

/-- **C7** (confirmed): with no changed path under `internal/`, the
selection is exactly the Module entries whose `repo_filename` is among
the changed files that end in `.py`, live under `examples/`, and are
not `__init__.py`.  The hypothesis `hpy` is the classifier invariant
that every catalog entry with a `.py` path is a Module entry (the code
itself filters only on the path, which coincides under that
invariant). -/
theorem claim_C7_selects_exactly_changed_modules (catalog : List Example)
    (changed : List String)
    (hnint : changed.any (fun f => strStartsWith f "internal/") = false)
    (hpy : ∀ e ∈ catalog, strEndsWith e.repo_filename ".py" = true
        → e.type = ExampleType.module) :
    get_examples_to_test catalog changed
      = catalog.filter (fun e => e.type == ExampleType.module
          && (changedPyFiles changed).contains e.repo_filename) := by
  unfold get_examples_to_test
  rw [if_neg (by simp [hnint])]
  apply List.filter_congr
  intro e he
  cases hc : (changedPyFiles changed).contains e.repo_filename with
  | false => simp [hc]
  | true =>
    have hmem : e.repo_filename ∈ changedPyFiles changed := List.elem_iff.mp hc
    have hpred := (List.mem_filter.mp hmem).2
    have hend : strEndsWith e.repo_filename ".py" = true := by
      simp only [Bool.and_eq_true] at hpred
      exact hpred.1.1
    simp [hc, hpy e he hend]

/-- Catalog entry with a repository-rooted path (as a changed-file list
from a diff would name it). -/
def prefixedHello : Example :=
  mkModuleExample ["examples"] "01_getting_started" "01_getting_started"
    "01_hello_world.py" "01_hello_world"
    "/repo/examples/01_getting_started/01_hello_world.py" helloMeta

/-- **C7** witness: a two-entry catalog against a changed-file list
naming one of the entries selects exactly that entry. -/
theorem claim_C7_witness :
    (["examples/01_getting_started/01_hello_world.py", "README.md"].any
        (fun f => strStartsWith f "internal/") = false)
    ∧ get_examples_to_test [prefixedHello, dbtEntry]
        ["examples/01_getting_started/01_hello_world.py", "README.md"]
      = [prefixedHello] :=
  ⟨by decide,
    claim_C7_selects_exactly_changed_modules [prefixedHello, dbtEntry]
      ["examples/01_getting_started/01_hello_world.py", "README.md"]
      (by decide) (by decide)⟩

/-- **C8** (corrected): `cli_args` always equals the declared `cmd`
(defaulting to `["prefect", "run", repo_filename]` when absent) followed
by the declared `args` (defaulting to `[]`) — and it is empty exactly
when the frontmatter declares `cmd: []` and declares no (or empty)
`args`, so the non-emptiness part of the original claim fails for a
declared empty `cmd`. -/
theorem claim_C8_cli_args_resolution (parents : List String)
    (subdirName subdirStem fname fstem filenameAbs : String) (meta : Meta) :
    (mkModuleExample parents subdirName subdirStem fname fstem filenameAbs meta).cli_args
      = some (meta.cmd.getD (defaultCmd
            (mkModuleExample parents subdirName subdirStem fname fstem
              filenameAbs meta).repo_filename)
          ++ meta.args.getD [])
    ∧ ((mkModuleExample parents subdirName subdirStem fname fstem
          filenameAbs meta).cli_args = some []
        ↔ meta.cmd = some [] ∧ meta.args.getD [] = []) := by
  refine ⟨rfl, ?_⟩
  cases hcmd : meta.cmd with
  | none => simp [mkModuleExample, hcmd, defaultCmd]
  | some c => simp [mkModuleExample, hcmd]

/-- **C8** counterexample: a frontmatter declaring `cmd: []` yields a
Module entry whose `cli_args` is present but empty. -/
theorem claim_C8_counterexample :
    (mkModuleExample [] "01_getting_started" "01_getting_started" "90_empty_cmd.py"
        "90_empty_cmd" "/repo/examples/01_getting_started/90_empty_cmd.py"
        { cmd := some [] }).cli_args = some [] := by
  decide

/-- Flat classification only reads a node's name and constructor, so a
directory's pruned contents are irrelevant to it. -/
theorem classifyFlat_pruneDeep (base : String) (parents : List String)
    (subdirName subdirStem : String) (c : FsNode) :
    classifyFlat base parents subdirName subdirStem (pruneDeep c)
      = classifyFlat base parents subdirName subdirStem c := by
  cases c <;> rfl

/-- Pruning directory contents does not change flat classification of a
list of nodes. -/
theorem classifyFlatList_pruneDeep (base : String) (parents : List String)
    (subdirName subdirStem : String) (cs : List FsNode) :
    classifyFlatList base parents subdirName subdirStem (cs.map pruneDeep)
      = classifyFlatList base parents subdirName subdirStem cs := by
  induction cs with
  | nil => rfl
  | cons c rest ih => simp [classifyFlatList, classifyFlat_pruneDeep, ih]

/-- With `recurse=False` the walk never enters a directory: it is flat
classification. -/
theorem gatherChildren_false (base : String) (parents : List String)
    (subdirName subdirStem : String) (cs : List FsNode) :
    gatherChildren base parents subdirName subdirStem cs false
      = classifyFlatList base parents subdirName subdirStem cs := by
  induction cs with
  | nil => rfl
  | cons c rest ih =>
    cases c with
    | file n m => simp [gatherChildren, gatherNode, classifyFlatList, ih]
    | dir n cs' => simp [gatherChildren, gatherNode, classifyFlatList, ih]

/-- The recursive walk with `recurse=True` coincides with the explicit
two-level traversal. -/
theorem gatherChildren_true_eq_twoLevel (base : String) (parents : List String)
    (subdirName subdirStem : String) (cs : List FsNode) :
    gatherChildren base parents subdirName subdirStem cs true
      = twoLevelGather base parents subdirName subdirStem cs := by
  induction cs with
  | nil => rfl
  | cons c rest ih =>
    cases c with
    | file n m => simp [gatherChildren, gatherNode, twoLevelGather, ih]
    | dir n cs' =>
      simp [gatherChildren, gatherNode, twoLevelGather, ih, gatherChildren_false]

/-- The two-level traversal never reads below the second level. -/
theorem twoLevelGather_prune (base : String) (parents : List String)
    (subdirName subdirStem : String) (cs : List FsNode) :
    twoLevelGather base parents subdirName subdirStem (cs.map pruneLevel1)
      = twoLevelGather base parents subdirName subdirStem cs := by
  induction cs with
  | nil => rfl
  | cons c rest ih =>
    cases c with
    | file n m => simp [twoLevelGather, pruneLevel1, ih]
    | dir n cs' => simp [twoLevelGather, pruneLevel1, ih, classifyFlatList_pruneDeep]

/-- **C9** (confirmed): `gather_example_files` with `recurse=True` is a
total function of the tree (the embedding is structural recursion, so it
terminates on every finite tree), and it equals the explicit two-level
traversal: the subtree's items plus a non-recursive listing of each
immediate subdirectory — so every yielded entry comes from the first or
second level.  Moreover erasing everything below the second level
(`pruneLevel1`) leaves the result unchanged: directories nested below
the second level are never traversed. -/
theorem claim_C9_traversal_depth_bounded (base : String) (parents : List String)
    (subdirName subdirStem : String) (cs : List FsNode) :
    gatherChildren base parents subdirName subdirStem cs true
      = twoLevelGather base parents subdirName subdirStem cs
    ∧ gatherChildren base parents subdirName subdirStem (cs.map pruneLevel1) true
      = gatherChildren base parents subdirName subdirStem cs true := by
  refine ⟨gatherChildren_true_eq_twoLevel base parents subdirName subdirStem cs, ?_⟩
  rw [gatherChildren_true_eq_twoLevel, gatherChildren_true_eq_twoLevel,
    twoLevelGather_prune]

end PrefectExamples
